import Mathlib

/-!
Verification of the neo-starter authentication middleware and role helpers.

The middleware (Next.js `middleware` function) classifies a request pathname
against four static route tables (protected, auth-only, public, admin),
refreshes the session (a side effect that may set cookies on the pass-through
response object), and decides between passing the request through and
redirecting to `/login` or `/dashboard`.

Pathnames, query-parameter names/values and cookie names/values are modelled
as `List Char` (the code-unit sequence of a JS string); `String.startsWith`
becomes `List.isPrefixOf`.  The two backend calls — session resolution
(`supabase.auth.getUser()`) and the role lookup (`select role ... single()`) —
are modelled as inputs: the resolved user (with its error flag) and the
optional role row.  Responses are `next` (pass-through, carrying the cookie
set of the `supabaseResponse` object) or `redirect` (a fresh
`NextResponse.redirect`, carrying its own — initially empty — cookie set).
-/

namespace NeoStarter

/-- A JS string, as its sequence of characters. -/
abbrev Str := List Char

/-- `pathname.startsWith(route)` from JS. -/
def strStartsWith (s pre : Str) : Bool := pre.isPrefixOf s

/-- `searchParams.get(name)`: value of the first parameter with this name,
`none` when absent (JS `null`). -/
def getParam (ps : List (Str × Str)) (name : Str) : Option Str :=
  (ps.find? (fun q => q.1 == name)).map (fun q => q.2)

/-- `searchParams.set(name, value)`: replace the first occurrence in place,
delete the rest, append when absent. -/
def setParam (ps : List (Str × Str)) (name v : Str) : List (Str × Str) :=
  match ps with
  | [] => [(name, v)]
  | q :: rest =>
      if q.1 == name then
        (name, v) :: rest.filter (fun q2 => !(q2.1 == name))
      else
        q :: setParam rest name v

/-- A request URL, as far as the middleware manipulates it: the pathname and
the search parameters. -/
structure NextUrl where
  pathname : Str
  params : List (Str × Str)
deriving DecidableEq, Repr

/-- The middleware's outcome: `next` is the pass-through response
(`supabaseResponse`, carrying the cookies written during session refresh);
`redirect` is a fresh `NextResponse.redirect(url)` carrying its own cookie
set, which at creation is empty. -/
inductive Response where
  | next (cookies : List (Str × Str)) : Response
  | redirect (url : NextUrl) (cookies : List (Str × Str)) : Response
deriving DecidableEq, Repr

/-- The cookie set a response carries. -/
def Response.cookies : Response → List (Str × Str)
  | .next cs => cs
  | .redirect _ cs => cs

/-- User role, from the `users.role` column (`'user' | 'moderator' | 'admin'`). -/
inductive UserRole where
  | user
  | moderator
  | admin
deriving DecidableEq, Repr

/-- The four route tables of `middleware.ts`, as a configuration record
(the source declares them as module-level constants; `defaultRouteConfig`
below is that configuration). -/
structure RouteConfig where
  protectedRoutes : List Str
  authRoutes : List Str
  publicRoutes : List Str
  adminRoutes : List Str

/-- `protectedRoutes` from the source: routes requiring authentication. -/
def protectedRoutes : List Str :=
  [ "/dashboard".data, "/profile".data, "/settings".data, "/admin".data ]

/-- `authRoutes` from the source: routes only for unauthenticated users. -/
def authRoutes : List Str :=
  [ "/login".data, "/signup".data, "/forgot-password".data, "/reset-password".data ]

/-- `publicRoutes` from the source: routes that bypass auth checks. -/
def publicRoutes : List Str :=
  [ "/".data, "/about".data, "/contact".data, "/pricing".data, "/blog".data ]

/-- `adminRoutes` from the source: routes requiring the admin role. -/
def adminRoutes : List Str :=
  [ "/admin".data ]

/-- The configuration actually declared in the source file. -/
def defaultRouteConfig : RouteConfig :=
  { protectedRoutes := protectedRoutes
    authRoutes := authRoutes
    publicRoutes := publicRoutes
    adminRoutes := adminRoutes }

/-- `protectedRoutes.some(route => pathname.startsWith(route))`. -/
def isProtectedRoute (cfg : RouteConfig) (pathname : Str) : Bool :=
  cfg.protectedRoutes.any (fun route => strStartsWith pathname route)

/-- `authRoutes.some(route => pathname.startsWith(route))`. -/
def isAuthRoute (cfg : RouteConfig) (pathname : Str) : Bool :=
  cfg.authRoutes.any (fun route => strStartsWith pathname route)

/-- `publicRoutes.some(route => pathname === route || pathname.startsWith(route + "/"))`. -/
def isPublicRoute (cfg : RouteConfig) (pathname : Str) : Bool :=
  cfg.publicRoutes.any (fun route =>
    pathname == route || strStartsWith pathname (route ++ [ '/' ]))

/-- `adminRoutes.some(route => pathname.startsWith(route))`. -/
def isAdminRoute (cfg : RouteConfig) (pathname : Str) : Bool :=
  cfg.adminRoutes.any (fun route => strStartsWith pathname route)

/-- The inputs of one middleware run: the request URL, and the results of the
two backend calls.  `refreshedCookies` is the net cookie set written onto
`supabaseResponse` by the session-refresh side effect of
`supabase.auth.getUser()` (empty when no refresh happened); `user` and
`userError` are the destructured result of `getUser()`; `roleLookup` is the
`role` of the profile row returned by the admin-path lookup, `none` when the
query errors or returns no row (`data` is then `null`). -/
structure MwInput where
  pathname : Str
  params : List (Str × Str)
  refreshedCookies : List (Str × Str)
  user : Option Str
  userError : Bool
  roleLookup : Option UserRole
deriving DecidableEq, Repr

/-- The `redirectTo` query-parameter name. -/
def redirectToName : Str := "redirectTo".data

/-- The `middleware` function of the source, over an explicit route
configuration.  Mirrors the source's control flow: auth-callback bypass,
public-and-not-protected pass-through, protected handling (login redirect for
missing identity, dashboard redirect for non-admin on admin routes),
auth-route handling (redirect away for authenticated users, honouring a
truthy non-auth `redirectTo`), final pass-through. -/
def middlewareCfg (cfg : RouteConfig) (inp : MwInput) : Response :=
  let supabaseResponse := Response.next inp.refreshedCookies
  if strStartsWith inp.pathname ("/auth/callback".data) then
    supabaseResponse
  else
    let afterProtected : Response :=
      if isAuthRoute cfg inp.pathname && inp.user.isSome then
        match getParam inp.params redirectToName with
        | some redirectTo =>
            if !(redirectTo == []) &&
               !(cfg.authRoutes.any (fun route => strStartsWith redirectTo route)) then
              Response.redirect { pathname := redirectTo, params := [] } []
            else
              Response.redirect { pathname := "/dashboard".data, params := [] } []
        | none =>
            Response.redirect { pathname := "/dashboard".data, params := [] } []
      else
        supabaseResponse
    if isPublicRoute cfg inp.pathname && !(isProtectedRoute cfg inp.pathname) then
      supabaseResponse
    else if isProtectedRoute cfg inp.pathname then
      match inp.user with
      | none =>
          Response.redirect
            { pathname := "/login".data
              params := setParam inp.params redirectToName inp.pathname } []
      | some _ =>
          if isAdminRoute cfg inp.pathname && !(inp.roleLookup == some UserRole.admin) then
            Response.redirect { pathname := "/dashboard".data, params := inp.params } []
          else
            afterProtected
    else
      afterProtected

/-- The middleware at the configuration declared in the source. -/
def middleware (inp : MwInput) : Response :=
  middlewareCfg defaultRouteConfig inp

/-! ### The role helpers of `src/lib/auth.ts` -/

/-- A user-profile row of the `users` table, as far as the auth helpers
read it. -/
structure User where
  id : Str
  role : UserRole
deriving DecidableEq, Repr

/-- The authenticated identity returned by the session provider. -/
abbrev AuthUser := Str

/-- The `AuthError` class: a message and an optional machine-readable code. -/
structure AuthError where
  message : String
  code : Option String
deriving DecidableEq, Repr

/-- The role hierarchy declared inside `checkUserRole`:
`{ user: 1, moderator: 2, admin: 3 }`. -/
def roleHierarchy : UserRole → Nat
  | .user => 1
  | .moderator => 2
  | .admin => 3

/-- The string form of a role, as interpolated into error messages. -/
def UserRole.toName : UserRole → String
  | .user => "user"
  | .moderator => "moderator"
  | .admin => "admin"

/-- `checkUserRole(requiredRole, userRole?)`: when `userRole` is not
provided, fall back to the fetched current profile (false when there is
none); then compare through `roleHierarchy`.  The profile fetch
(`getCurrentUserProfile()`) is modelled as the input `fetchedProfile`. -/
def checkUserRole (requiredRole : UserRole) (userRole : Option UserRole)
    (fetchedProfile : Option User) : Bool :=
  match userRole with
  | some role => decide (roleHierarchy role ≥ roleHierarchy requiredRole)
  | none =>
      match fetchedProfile with
      | none => false
      | some profile => decide (roleHierarchy profile.role ≥ roleHierarchy requiredRole)

/-- `requireAuth()`: throw `AuthError('Authentication required',
'UNAUTHORIZED')` when there is no current user, else return the user.
The `getCurrentUser()` call is modelled as the input `currentUser`. -/
def requireAuth (currentUser : Option AuthUser) : Except AuthError AuthUser :=
  match currentUser with
  | none => .error { message := "Authentication required", code := some "UNAUTHORIZED" }
  | some u => .ok u

/-- `requireRole(requiredRole)`: require authentication, require a profile,
then throw `AuthError(..., 'INSUFFICIENT_PERMISSIONS')` when
`checkUserRole(requiredRole, profile.role)` fails, else return the profile.
The `getCurrentUser()` / `getCurrentUserProfile()` calls are modelled as the
inputs `currentUser` and `currentProfile`. -/
def requireRole (requiredRole : UserRole) (currentUser : Option AuthUser)
    (currentProfile : Option User) : Except AuthError User :=
  match requireAuth currentUser with
  | .error e => .error e
  | .ok _ =>
      match currentProfile with
      | none =>
          .error { message := "User profile not found", code := some "PROFILE_NOT_FOUND" }
      | some profile =>
          if checkUserRole requiredRole (some profile.role) currentProfile then
            .ok profile
          else
            .error { message := "Access denied. Required role: " ++ requiredRole.toName
                     code := some "INSUFFICIENT_PERMISSIONS" }

/-- The spec's role order `user < moderator < admin`, as an ordinal map
(written from the spec's words, to be compared with `roleHierarchy`). -/
def specOrdinal : UserRole → Nat
  | .user => 0
  | .moderator => 1
  | .admin => 2

/-! ### Route-classification lemmas -/

/-- Two incomparable strings cannot both be prefixes of the same pathname. -/
theorem not_prefix_of_incomparable {a b p : Str} (hap : a <+: p)
    (h1 : ¬ a <+: b) (h2 : ¬ b <+: a) : ¬ b <+: p := by
  intro hbp
  have hor := List.prefix_or_prefix_of_prefix hbp hap
  exact hor.elim h2 h1

/-- A pathname that starts with some route of `src` starts with no member of
`tgt`, provided every `src` route is incomparable with every `tgt` route. -/
theorem any_startsWith_false_of_any {p : Str} {src : List Str} (tgt : List Str)
    (hsrc : src.any (fun route => strStartsWith p route) = true)
    (h : ∀ a ∈ src, ∀ b ∈ tgt, ¬ a <+: b ∧ ¬ b <+: a) :
    tgt.any (fun route => strStartsWith p route) = false := by
  rw [List.any_eq_true] at hsrc
  obtain ⟨a, ha, hstart⟩ := hsrc
  rw [strStartsWith, List.isPrefixOf_iff_prefix] at hstart
  rw [List.any_eq_false]
  intro b hb
  simp only [strStartsWith, List.isPrefixOf_iff_prefix, Bool.not_eq_true]
  exact not_prefix_of_incomparable hstart (h a ha b hb).1 (h a ha b hb).2

/-- A pathname that starts with some route of `src` does not start with `b`,
provided every `src` route is incomparable with `b`. -/
theorem startsWith_false_of_any {p : Str} {src : List Str} (b : Str)
    (hsrc : src.any (fun route => strStartsWith p route) = true)
    (h : ∀ a ∈ src, ¬ a <+: b ∧ ¬ b <+: a) :
    strStartsWith p b = false := by
  have := any_startsWith_false_of_any [b] hsrc (by
    intro a ha b2 hb2
    rw [List.mem_singleton] at hb2
    subst hb2
    exact h a ha)
  simpa using this

/-- A pathname that starts with some route of `src` is not public, provided
every `src` route is incomparable with every public route's exact form and
slash-extended form. -/
theorem isPublicRoute_false_of_any {p : Str} {src : List Str} (cfg : RouteConfig)
    (hsrc : src.any (fun route => strStartsWith p route) = true)
    (h : ∀ a ∈ src, ∀ r ∈ cfg.publicRoutes,
      ¬ a <+: r ∧ ¬ a <+: (r ++ [ '/' ]) ∧ ¬ (r ++ [ '/' ]) <+: a) :
    isPublicRoute cfg p = false := by
  rw [List.any_eq_true] at hsrc
  obtain ⟨a, ha, hstart⟩ := hsrc
  rw [strStartsWith, List.isPrefixOf_iff_prefix] at hstart
  rw [isPublicRoute, List.any_eq_false]
  intro r hr
  simp only [Bool.or_eq_true]
  rintro (hpr | hps)
  · rw [beq_iff_eq] at hpr
    subst hpr
    exact (h a ha p hr).1 hstart
  · rw [strStartsWith, List.isPrefixOf_iff_prefix] at hps
    exact not_prefix_of_incomparable hstart (h a ha r hr).2.1 (h a ha r hr).2.2 hps

/-- `searchParams.get` after `searchParams.set` of the same name yields the
value just set. -/
theorem getParam_setParam (ps : List (Str × Str)) (name v : Str) :
    getParam (setParam ps name v) name = some v := by
  induction ps with
  | nil => simp [setParam, getParam, List.find?]
  | cons q rest ih =>
      by_cases h : (q.1 == name) = true
      · simp [setParam, h, getParam, List.find?]
      · simp only [setParam, getParam]
        rw [if_neg h]
        rw [List.find?_cons_of_neg _ (by simpa using h)]
        simpa [getParam] using ih

/-! ### Branch lemmas for `middlewareCfg` -/

/-- Auth-callback paths short-circuit to the pass-through response. -/
theorem middlewareCfg_callback (cfg : RouteConfig) (inp : MwInput)
    (hcb : strStartsWith inp.pathname ("/auth/callback".data) = true) :
    middlewareCfg cfg inp = Response.next inp.refreshedCookies := by
  simp [middlewareCfg, hcb]

/-- Public, non-protected paths pass through (whether or not they are also
under the auth-callback prefix, since that branch passes through too). -/
theorem middlewareCfg_public_passthrough (cfg : RouteConfig) (inp : MwInput)
    (hpub : isPublicRoute cfg inp.pathname = true)
    (hprot : isProtectedRoute cfg inp.pathname = false) :
    middlewareCfg cfg inp = Response.next inp.refreshedCookies := by
  by_cases hcb : strStartsWith inp.pathname ("/auth/callback".data) = true
  · simp [middlewareCfg, hcb]
  · simp [middlewareCfg, hcb, hpub, hprot]

/-- Protected path, no identity: redirect to login with the original path in
`redirectTo`. -/
theorem middlewareCfg_protected_unauthenticated (cfg : RouteConfig) (inp : MwInput)
    (hcb : strStartsWith inp.pathname ("/auth/callback".data) = false)
    (hprot : isProtectedRoute cfg inp.pathname = true)
    (hu : inp.user = none) :
    middlewareCfg cfg inp =
      Response.redirect
        { pathname := "/login".data
          params := setParam inp.params redirectToName inp.pathname } [] := by
  simp [middlewareCfg, hcb, hprot, hu]

/-- Protected admin path, identity present, role lookup not equal to admin:
redirect to dashboard (search parameters are not cleared on this branch). -/
theorem middlewareCfg_admin_insufficient (cfg : RouteConfig) (inp : MwInput) (u : Str)
    (hcb : strStartsWith inp.pathname ("/auth/callback".data) = false)
    (hprot : isProtectedRoute cfg inp.pathname = true)
    (hadmin : isAdminRoute cfg inp.pathname = true)
    (hu : inp.user = some u)
    (hr : (inp.roleLookup == some UserRole.admin) = false) :
    middlewareCfg cfg inp =
      Response.redirect { pathname := "/dashboard".data, params := inp.params } [] := by
  simp [middlewareCfg, hcb, hprot, hadmin, hu, hr]

/-- Auth-only path, identity present: redirect away, honouring a truthy
`redirectTo` that is not itself an auth route. -/
theorem middlewareCfg_authRoute_authenticated (cfg : RouteConfig) (inp : MwInput) (u : Str)
    (hcb : strStartsWith inp.pathname ("/auth/callback".data) = false)
    (hpub : isPublicRoute cfg inp.pathname = false)
    (hprot : isProtectedRoute cfg inp.pathname = false)
    (hauth : isAuthRoute cfg inp.pathname = true)
    (hu : inp.user = some u) :
    middlewareCfg cfg inp =
      (match getParam inp.params redirectToName with
        | some redirectTo =>
            if !(redirectTo == []) &&
               !(cfg.authRoutes.any (fun route => strStartsWith redirectTo route)) then
              Response.redirect { pathname := redirectTo, params := [] } []
            else
              Response.redirect { pathname := "/dashboard".data, params := [] } []
        | none => Response.redirect { pathname := "/dashboard".data, params := [] } []) := by
  simp [middlewareCfg, hcb, hpub, hprot, hauth, hu]

/-! ### Classification facts at the source's configuration -/

/-- `isProtectedRoute` at the default configuration, unfolded. -/
theorem isProtectedRoute_default (p : Str) :
    isProtectedRoute defaultRouteConfig p =
      protectedRoutes.any (fun route => strStartsWith p route) := rfl

/-- `isAuthRoute` at the default configuration, unfolded. -/
theorem isAuthRoute_default (p : Str) :
    isAuthRoute defaultRouteConfig p =
      authRoutes.any (fun route => strStartsWith p route) := rfl

/-- `isAdminRoute` at the default configuration, unfolded. -/
theorem isAdminRoute_default (p : Str) :
    isAdminRoute defaultRouteConfig p =
      adminRoutes.any (fun route => strStartsWith p route) := rfl

/-- A protected path is never under the auth-callback prefix. -/
theorem default_protected_not_callback (p : Str)
    (h : isProtectedRoute defaultRouteConfig p = true) :
    strStartsWith p ("/auth/callback".data) = false := by
  have h' : protectedRoutes.any (fun route => strStartsWith p route) = true := h
  exact startsWith_false_of_any _ h' (by decide)

/-- An admin path matches the protected table. -/
theorem default_admin_protected (p : Str)
    (h : isAdminRoute defaultRouteConfig p = true) :
    isProtectedRoute defaultRouteConfig p = true := by
  have h' : adminRoutes.any (fun route => strStartsWith p route) = true := h
  simp only [adminRoutes, List.any_cons, List.any_nil, Bool.or_false] at h'
  rw [isProtectedRoute_default]
  simp [protectedRoutes, h']

/-- An auth-only path is never under the auth-callback prefix. -/
theorem default_auth_not_callback (p : Str)
    (h : isAuthRoute defaultRouteConfig p = true) :
    strStartsWith p ("/auth/callback".data) = false := by
  have h' : authRoutes.any (fun route => strStartsWith p route) = true := h
  exact startsWith_false_of_any _ h' (by decide)

/-- An auth-only path never matches the protected table. -/
theorem default_auth_not_protected (p : Str)
    (h : isAuthRoute defaultRouteConfig p = true) :
    isProtectedRoute defaultRouteConfig p = false := by
  have h' : authRoutes.any (fun route => strStartsWith p route) = true := h
  rw [isProtectedRoute_default]
  exact any_startsWith_false_of_any _ h' (by decide)

/-- An auth-only path never matches the public table. -/
theorem default_auth_not_public (p : Str)
    (h : isAuthRoute defaultRouteConfig p = true) :
    isPublicRoute defaultRouteConfig p = false := by
  have h' : authRoutes.any (fun route => strStartsWith p route) = true := h
  exact isPublicRoute_false_of_any _ h' (by decide)

/-- `defaultRouteConfig`'s auth table is the source's `authRoutes`. -/
theorem defaultRouteConfig_authRoutes : defaultRouteConfig.authRoutes = authRoutes := rfl

/-! ### Claim theorems -/

/-- C7: for every request pathname, classification as admin-protected implies
classification as protected under the configured route tables (the admin
route set is a subset of the protected route set). -/
theorem admin_implies_protected (p : Str)
    (h : isAdminRoute defaultRouteConfig p = true) :
    isProtectedRoute defaultRouteConfig p = true :=
  default_admin_protected p h

/-- Witness for C7: `/admin/tools` is admin-classified and protected. -/
theorem admin_implies_protected_witness :
    isAdminRoute defaultRouteConfig ("/admin/tools".data) = true ∧
    isProtectedRoute defaultRouteConfig ("/admin/tools".data) = true :=
  ⟨by decide, admin_implies_protected ("/admin/tools".data) (by decide)⟩

/-- C8: every request under the auth-callback prefix gets the pass-through
response carrying the refreshed cookies, regardless of auth state or role. -/
theorem callback_passes_through (inp : MwInput)
    (hcb : strStartsWith inp.pathname ("/auth/callback".data) = true) :
    middleware inp = Response.next inp.refreshedCookies :=
  middlewareCfg_callback defaultRouteConfig inp hcb

/-- Witness for C8: an unauthenticated request to `/auth/callback?code=x`
passes through with the refreshed cookie set. -/
theorem callback_passes_through_witness :
    middleware
      { pathname := "/auth/callback".data
        params := [("code".data, "x".data)]
        refreshedCookies := [("sb".data, "tok".data)]
        user := none
        userError := false
        roleLookup := none } =
      Response.next [("sb".data, "tok".data)] :=
  callback_passes_through
    { pathname := "/auth/callback".data
      params := [("code".data, "x".data)]
      refreshedCookies := [("sb".data, "tok".data)]
      user := none
      userError := false
      roleLookup := none } (by decide)

/-- C3: on every admin-classified path, an authenticated caller whose stored
role is not admin is redirected to the dashboard, never to the login page. -/
theorem admin_nonadmin_redirects_to_dashboard (inp : MwInput) (u : Str) (r : UserRole)
    (hu : inp.user = some u) (hrole : inp.roleLookup = some r)
    (hne : r ≠ UserRole.admin)
    (hadmin : isAdminRoute defaultRouteConfig inp.pathname = true) :
    middleware inp =
      Response.redirect { pathname := "/dashboard".data, params := inp.params } [] ∧
    ∀ (url : NextUrl) (cs : List (Str × Str)), url.pathname = "/login".data →
      middleware inp ≠ Response.redirect url cs := by
  have hprot := default_admin_protected inp.pathname hadmin
  have hcb := default_protected_not_callback inp.pathname hprot
  have hr : (inp.roleLookup == some UserRole.admin) = false := by
    rw [hrole]
    cases r with
    | user => rfl
    | moderator => rfl
    | admin => exact absurd rfl hne
  have hmain : middleware inp =
      Response.redirect { pathname := "/dashboard".data, params := inp.params } [] :=
    middlewareCfg_admin_insufficient defaultRouteConfig inp u hcb hprot hadmin hu hr
  refine ⟨hmain, ?_⟩
  intro url cs hurl hcontra
  rw [hmain] at hcontra
  injection hcontra with h1 _
  subst h1
  have h2 : ("/dashboard".data : Str) = "/login".data := hurl
  exact absurd h2 (by decide)

/-- Witness for C3: a moderator requesting `/admin/tools` is sent to the
dashboard. -/
theorem admin_nonadmin_redirects_to_dashboard_witness :
    middleware
      { pathname := "/admin/tools".data
        params := []
        refreshedCookies := []
        user := some ("u1".data)
        userError := false
        roleLookup := some UserRole.moderator } =
      Response.redirect { pathname := "/dashboard".data, params := [] } [] ∧
    ∀ (url : NextUrl) (cs : List (Str × Str)), url.pathname = "/login".data →
      middleware
        { pathname := "/admin/tools".data
          params := []
          refreshedCookies := []
          user := some ("u1".data)
          userError := false
          roleLookup := some UserRole.moderator } ≠ Response.redirect url cs :=
  admin_nonadmin_redirects_to_dashboard
    { pathname := "/admin/tools".data
      params := []
      refreshedCookies := []
      user := some ("u1".data)
      userError := false
      roleLookup := some UserRole.moderator }
    ("u1".data) UserRole.moderator rfl rfl (by decide) (by decide)

/-- C4: every unauthenticated request to a protected path is redirected to
the login page, and the redirect's `redirectTo` parameter equals the original
pathname exactly. -/
theorem protected_unauthenticated_login_redirect (inp : MwInput)
    (hu : inp.user = none)
    (hprot : isProtectedRoute defaultRouteConfig inp.pathname = true) :
    middleware inp =
      Response.redirect
        { pathname := "/login".data
          params := setParam inp.params redirectToName inp.pathname } [] ∧
    getParam (setParam inp.params redirectToName inp.pathname) redirectToName =
      some inp.pathname := by
  have hcb := default_protected_not_callback inp.pathname hprot
  exact ⟨middlewareCfg_protected_unauthenticated defaultRouteConfig inp hcb hprot hu,
         getParam_setParam inp.params redirectToName inp.pathname⟩

/-- Witness for C4: an unauthenticated request to `/dashboard/settings` is
redirected to login with `redirectTo=/dashboard/settings`. -/
theorem protected_unauthenticated_login_redirect_witness :
    middleware
      { pathname := "/dashboard/settings".data
        params := []
        refreshedCookies := []
        user := none
        userError := false
        roleLookup := none } =
      Response.redirect
        { pathname := "/login".data
          params := [(redirectToName, "/dashboard/settings".data)] } [] ∧
    getParam [(redirectToName, "/dashboard/settings".data)] redirectToName =
      some ("/dashboard/settings".data) :=
  protected_unauthenticated_login_redirect
    { pathname := "/dashboard/settings".data
      params := []
      refreshedCookies := []
      user := none
      userError := false
      roleLookup := none } rfl (by decide)

/-- C6: a public path that is not protected passes an unauthenticated caller
through; and, for any route configuration, a path classified both public and
protected is handled as protected — an unauthenticated caller is redirected
to login, so public status alone never grants access. -/
theorem public_passthrough_protected_precedence :
    (∀ inp : MwInput, inp.user = none →
       isPublicRoute defaultRouteConfig inp.pathname = true →
       isProtectedRoute defaultRouteConfig inp.pathname = false →
       middleware inp = Response.next inp.refreshedCookies) ∧
    (∀ (cfg : RouteConfig) (inp : MwInput), inp.user = none →
       strStartsWith inp.pathname ("/auth/callback".data) = false →
       isPublicRoute cfg inp.pathname = true →
       isProtectedRoute cfg inp.pathname = true →
       middlewareCfg cfg inp =
         Response.redirect
           { pathname := "/login".data
             params := setParam inp.params redirectToName inp.pathname } []) := by
  constructor
  · intro inp _ hpub hprot
    exact middlewareCfg_public_passthrough defaultRouteConfig inp hpub hprot
  · intro cfg inp hu hcb _ hprot
    exact middlewareCfg_protected_unauthenticated cfg inp hcb hprot hu

/-- Witness for C6: `/about` passes through unauthenticated; with a
configuration marking `/docs` both public and protected, an unauthenticated
request to `/docs` is redirected to login. -/
theorem public_passthrough_protected_precedence_witness :
    middleware
      { pathname := "/about".data
        params := []
        refreshedCookies := [("sb".data, "tok".data)]
        user := none
        userError := false
        roleLookup := none } =
      Response.next [("sb".data, "tok".data)] ∧
    middlewareCfg
      { protectedRoutes := ["/docs".data]
        authRoutes := []
        publicRoutes := ["/docs".data]
        adminRoutes := [] }
      { pathname := "/docs".data
        params := []
        refreshedCookies := []
        user := none
        userError := false
        roleLookup := none } =
      Response.redirect
        { pathname := "/login".data
          params := [(redirectToName, "/docs".data)] } [] :=
  ⟨public_passthrough_protected_precedence.1
    { pathname := "/about".data
      params := []
      refreshedCookies := [("sb".data, "tok".data)]
      user := none
      userError := false
      roleLookup := none } rfl (by decide) (by decide),
   public_passthrough_protected_precedence.2
    { protectedRoutes := ["/docs".data]
      authRoutes := []
      publicRoutes := ["/docs".data]
      adminRoutes := [] }
    { pathname := "/docs".data
      params := []
      refreshedCookies := []
      user := none
      userError := false
      roleLookup := none } rfl (by decide) (by decide) (by decide)⟩

/-- C5 counterexample: an authenticated caller on `/login` with a present but
empty `redirectTo` parameter — which does not name an auth-only path — is
redirected to the dashboard, not to the parameter's destination, because the
code treats the empty string as falsy. -/
theorem empty_redirectTo_defaults_to_dashboard :
    getParam [(("redirectTo".data : Str), ([] : Str))] redirectToName = some [] ∧
    (authRoutes.any (fun route => strStartsWith [] route)) = false ∧
    middleware
      { pathname := "/login".data
        params := [("redirectTo".data, [])]
        refreshedCookies := []
        user := some ("u1".data)
        userError := false
        roleLookup := none } =
      Response.redirect { pathname := "/dashboard".data, params := [] } [] ∧
    Response.redirect { pathname := ([] : Str), params := [] } [] ≠
      Response.redirect { pathname := "/dashboard".data, params := [] } [] := by
  refine ⟨rfl, by decide, ?_, by decide⟩
  decide

/-- C5 (amended): for an authenticated caller on an auth-only path, a present
`redirectTo` with a non-empty value not naming an auth-only path wins;
an absent, empty, or auth-only `redirectTo` falls back to the dashboard. -/
theorem authRoute_redirectTo_handling (inp : MwInput) (u : Str)
    (hu : inp.user = some u)
    (hauth : isAuthRoute defaultRouteConfig inp.pathname = true) :
    (∀ v : Str, getParam inp.params redirectToName = some v → v ≠ [] →
       (authRoutes.any (fun route => strStartsWith v route)) = false →
       middleware inp = Response.redirect { pathname := v, params := [] } []) ∧
    (getParam inp.params redirectToName = none →
       middleware inp =
         Response.redirect { pathname := "/dashboard".data, params := [] } []) ∧
    (∀ v : Str, getParam inp.params redirectToName = some v →
       (v = [] ∨ (authRoutes.any (fun route => strStartsWith v route)) = true) →
       middleware inp =
         Response.redirect { pathname := "/dashboard".data, params := [] } []) := by
  have hcb := default_auth_not_callback inp.pathname hauth
  have hprot := default_auth_not_protected inp.pathname hauth
  have hpub := default_auth_not_public inp.pathname hauth
  have hmain : middleware inp =
      (match getParam inp.params redirectToName with
        | some redirectTo =>
            if !(redirectTo == []) &&
               !(defaultRouteConfig.authRoutes.any
                   (fun route => strStartsWith redirectTo route)) then
              Response.redirect { pathname := redirectTo, params := [] } []
            else
              Response.redirect { pathname := "/dashboard".data, params := [] } []
        | none => Response.redirect { pathname := "/dashboard".data, params := [] } []) :=
    middlewareCfg_authRoute_authenticated defaultRouteConfig inp u hcb hpub hprot hauth hu
  refine ⟨?_, ?_, ?_⟩
  · intro v hv hne hnotauth
    rw [hmain, hv]
    have h1 : (v == ([] : Str)) = false := by
      rw [beq_eq_false_iff_ne]
      exact hne
    have h2 : defaultRouteConfig.authRoutes.any (fun route => strStartsWith v route) = false := by
      rw [defaultRouteConfig_authRoutes]
      exact hnotauth
    simp [h1, h2]
  · intro hv
    rw [hmain, hv]
  · intro v hv hcase
    rw [hmain, hv]
    rcases hcase with hemp | hauth2
    · subst hemp
      simp
    · have h2 : defaultRouteConfig.authRoutes.any (fun route => strStartsWith v route) = true := by
        rw [defaultRouteConfig_authRoutes]
        exact hauth2
      simp [h2]

/-- Witness for C5 (amended): `/login?redirectTo=/dashboard/settings` goes to
`/dashboard/settings`; `/login` with no parameter goes to the dashboard. -/
theorem authRoute_redirectTo_handling_witness :
    middleware
      { pathname := "/login".data
        params := [("redirectTo".data, "/dashboard/settings".data)]
        refreshedCookies := []
        user := some ("u1".data)
        userError := false
        roleLookup := none } =
      Response.redirect { pathname := "/dashboard/settings".data, params := [] } [] ∧
    middleware
      { pathname := "/login".data
        params := []
        refreshedCookies := []
        user := some ("u1".data)
        userError := false
        roleLookup := none } =
      Response.redirect { pathname := "/dashboard".data, params := [] } [] :=
  ⟨(authRoute_redirectTo_handling
      { pathname := "/login".data
        params := [("redirectTo".data, "/dashboard/settings".data)]
        refreshedCookies := []
        user := some ("u1".data)
        userError := false
        roleLookup := none } ("u1".data) rfl (by decide)).1
      ("/dashboard/settings".data) rfl (by decide) (by decide),
   (authRoute_redirectTo_handling
      { pathname := "/login".data
        params := []
        refreshedCookies := []
        user := some ("u1".data)
        userError := false
        roleLookup := none } ("u1".data) rfl (by decide)).2.1 rfl⟩

/-- C2 counterexample: on `/admin`, an authenticated caller whose role lookup
fails (no row) is redirected to the dashboard, while an unauthenticated
caller on the same path is redirected to login — the outcomes differ, so a
role-lookup failure is not handled as authentication absence. -/
theorem roleLookup_failure_differs_from_unauthenticated :
    middleware
      { pathname := "/admin".data
        params := []
        refreshedCookies := []
        user := some ("u1".data)
        userError := false
        roleLookup := none } =
      Response.redirect { pathname := "/dashboard".data, params := [] } [] ∧
    middleware
      { pathname := "/admin".data
        params := []
        refreshedCookies := []
        user := none
        userError := false
        roleLookup := none } =
      Response.redirect
        { pathname := "/login".data
          params := [(redirectToName, "/admin".data)] } [] ∧
    Response.redirect { pathname := "/dashboard".data, params := [] }
        ([] : List (Str × Str)) ≠
      Response.redirect
        { pathname := "/login".data
          params := [(redirectToName, "/admin".data)] } [] := by
  refine ⟨?_, ?_, by decide⟩ <;> decide

/-- C2 (amended): a session-resolution error changes nothing (with no
identity, the outcome is the unauthenticated one), and a role-lookup failure
on an admin path is treated as insufficient privilege — a dashboard redirect
— rather than as authentication absence; the middleware is a total function,
so no exception reaches the caller. -/
theorem lookup_failures_degrade (inp : MwInput) (u : Str) :
    (inp.userError = true → inp.user = none →
       middleware inp = middleware { inp with userError := false }) ∧
    (inp.user = some u → inp.roleLookup = none →
       isAdminRoute defaultRouteConfig inp.pathname = true →
       middleware inp =
         Response.redirect { pathname := "/dashboard".data, params := inp.params } []) := by
  constructor
  · intro _ _
    cases inp
    rfl
  · intro hu hrole hadmin
    have hprot := default_admin_protected inp.pathname hadmin
    have hcb := default_protected_not_callback inp.pathname hprot
    have hr : (inp.roleLookup == some UserRole.admin) = false := by
      rw [hrole]
      rfl
    exact middlewareCfg_admin_insufficient defaultRouteConfig inp u hcb hprot hadmin hu hr

/-- Witness for C2 (amended): a session error on `/about` with no identity
behaves as the unauthenticated pass-through; a missing role row on `/admin`
redirects the authenticated caller to the dashboard. -/
theorem lookup_failures_degrade_witness :
    middleware
      { pathname := "/about".data
        params := []
        refreshedCookies := []
        user := none
        userError := true
        roleLookup := none } =
      middleware
        { pathname := "/about".data
          params := []
          refreshedCookies := []
          user := none
          userError := false
          roleLookup := none } ∧
    middleware
      { pathname := "/admin".data
        params := []
        refreshedCookies := []
        user := some ("u1".data)
        userError := false
        roleLookup := none } =
      Response.redirect { pathname := "/dashboard".data, params := [] } [] :=
  ⟨(lookup_failures_degrade
      { pathname := "/about".data
        params := []
        refreshedCookies := []
        user := none
        userError := true
        roleLookup := none } ("u1".data)).1 rfl rfl,
   (lookup_failures_degrade
      { pathname := "/admin".data
        params := []
        refreshedCookies := []
        user := some ("u1".data)
        userError := false
        roleLookup := none } ("u1".data)).2 rfl rfl (by decide)⟩

/-- C1: at the failing input — an authenticated caller on `/login` whose
session refresh wrote a cookie — the middleware returns a redirect whose
cookie set is empty: the refreshed cookie is dropped on redirect branches,
contradicting the requirement (stated in the source's own comments) that the
refreshed cookies be carried on every returned response. -/
theorem redirect_drops_refreshed_cookies :
    middleware
      { pathname := "/login".data
        params := []
        refreshedCookies := [("sb-access-token".data, "refreshed".data)]
        user := some ("u1".data)
        userError := false
        roleLookup := some UserRole.user } =
      Response.redirect { pathname := "/dashboard".data, params := [] } [] ∧
    Response.cookies
      (middleware
        { pathname := "/login".data
          params := []
          refreshedCookies := [("sb-access-token".data, "refreshed".data)]
          user := some ("u1".data)
          userError := false
          roleLookup := some UserRole.user }) = [] := by
  refine ⟨?_, ?_⟩ <;> decide

/-- C9: with both roles supplied, `checkUserRole` returns true exactly when
the actual role's ordinal reaches the required role's ordinal under
`user < moderator < admin`; in particular admin satisfies user, moderator
does not satisfy admin, and moderator satisfies moderator. -/
theorem checkUserRole_is_ordinal_order :
    (∀ (requiredRole actual : UserRole) (fetchedProfile : Option User),
       checkUserRole requiredRole (some actual) fetchedProfile =
         decide (specOrdinal requiredRole ≤ specOrdinal actual)) ∧
    checkUserRole UserRole.user (some UserRole.admin) none = true ∧
    checkUserRole UserRole.admin (some UserRole.moderator) none = false ∧
    checkUserRole UserRole.moderator (some UserRole.moderator) none = true := by
  refine ⟨?_, rfl, rfl, rfl⟩
  intro requiredRole actual _
  cases requiredRole <;> cases actual <;> rfl

/-- C10: `requireRole` fails with the `UNAUTHORIZED` authentication error
when no user is logged in, fails with the distinct
`INSUFFICIENT_PERMISSIONS` authorization error when the logged-in user's
role ordinal is below the required one, and returns the profile when the
check passes. -/
theorem requireRole_distinguishes_failures :
    (∀ (requiredRole : UserRole) (currentProfile : Option User),
       requireRole requiredRole none currentProfile =
         .error { message := "Authentication required", code := some "UNAUTHORIZED" }) ∧
    (∀ (requiredRole : UserRole) (u : AuthUser) (profile : User),
       specOrdinal profile.role < specOrdinal requiredRole →
         requireRole requiredRole (some u) (some profile) =
           .error { message := "Access denied. Required role: " ++ requiredRole.toName
                    code := some "INSUFFICIENT_PERMISSIONS" }) ∧
    (∀ (requiredRole : UserRole) (u : AuthUser) (profile : User),
       specOrdinal requiredRole ≤ specOrdinal profile.role →
         requireRole requiredRole (some u) (some profile) = .ok profile) ∧
    (some "UNAUTHORIZED" : Option String) ≠ some "INSUFFICIENT_PERMISSIONS" := by
  refine ⟨?_, ?_, ?_, by decide⟩
  · intro requiredRole currentProfile
    rfl
  · intro requiredRole u profile h
    obtain ⟨i, ro⟩ := profile
    dsimp only at h
    cases ro <;> cases requiredRole <;>
      first
        | exact absurd h (by decide)
        | rfl
  · intro requiredRole u profile h
    obtain ⟨i, ro⟩ := profile
    dsimp only at h
    cases ro <;> cases requiredRole <;>
      first
        | exact absurd h (by decide)
        | rfl

/-- Witness for C10: no user yields the `UNAUTHORIZED` error; a moderator
requiring admin yields the `INSUFFICIENT_PERMISSIONS` error; an admin
requiring moderator gets the profile back. -/
theorem requireRole_distinguishes_failures_witness :
    requireRole UserRole.admin none none =
      .error { message := "Authentication required", code := some "UNAUTHORIZED" } ∧
    requireRole UserRole.admin (some ("u1".data)) (some { id := "u1".data, role := UserRole.moderator }) =
      .error { message := "Access denied. Required role: " ++ UserRole.admin.toName
               code := some "INSUFFICIENT_PERMISSIONS" } ∧
    requireRole UserRole.moderator (some ("u1".data)) (some { id := "u1".data, role := UserRole.admin }) =
      .ok { id := "u1".data, role := UserRole.admin } :=
  ⟨requireRole_distinguishes_failures.1 UserRole.admin none,
   requireRole_distinguishes_failures.2.1 UserRole.admin ("u1".data)
     { id := "u1".data, role := UserRole.moderator } (by decide),
   requireRole_distinguishes_failures.2.2.1 UserRole.moderator ("u1".data)
     { id := "u1".data, role := UserRole.admin } (by decide)⟩

end NeoStarter
